import Mathlib

/-!
Shallow embedding of `scripts/build-cross-platform.py`, the cross-platform
build orchestrator of the repository, together with proofs about the claims
of its specification.

Modelling conventions:
* The filesystem is an association list from path strings (POSIX-style, e.g.
  `"target/<triple>/release/rbx-studio-mcp"`) to file data (content, mode,
  mtime).  Directories are implicit: `Path.mkdir(exist_ok=True)` has no
  observable effect in the model.
* Every spawned external process is appended to a `trace`; its exit status
  and outputs are given by oracles in `BuildEnv` (the host machine).
  A successful `cargo build --release --target t` additionally writes the
  produced binary (oracle `builtOutput t`) to the expected path, and a
  successful `strip` rewrites the binary's content through `stripResult`.
* Python exceptions are modelled by an `Option PyExn` second component:
  `none` is a normal return (Python `None`), `some e` a propagating
  exception.  `subprocess.CalledProcessError` (re-raised by `run_command`)
  and `FileNotFoundError` (not caught by `run_command`) are merged into
  `PyExn.commandFailed`, which is faithful because the only handler in the
  script, `check_rust_installed`, catches both.
* An uncaught exception terminates CPython with exit code 1, as does
  `sys.exit(1)`; `main` returns the final world and the process exit code.
* String primitives of the script (`str.split`, `str.lower`, `in`,
  `fnmatch` of `Path.glob`) are re-implemented on `String.data` character
  lists with Python semantics, so that everything evaluates by `decide`.
-/

/-- Python `s.split(c)` for a one-character separator: splits at every
occurrence, keeping empty fields (`"a--b" → ["a", "", "b"]`, `"" → [""]`). -/
def pySplitAux (c : Char) : List Char → List Char → List (List Char)
  | [], acc => [acc.reverse]
  | ch :: rest, acc =>
      if ch = c then acc.reverse :: pySplitAux c rest []
      else pySplitAux c rest (ch :: acc)

/-- Python `s.split(c)` on a `String`. -/
def pySplit (c : Char) (s : String) : List String :=
  (pySplitAux c s.data []).map String.mk

/-- ASCII lowering of one character (Python `str.lower` on ASCII data). -/
def lowerChar (c : Char) : Char :=
  if 65 ≤ c.toNat ∧ c.toNat ≤ 90 then Char.ofNat (c.toNat + 32) else c

/-- Python `s.lower()` (the script only lowers ASCII platform names). -/
def pyLower (s : String) : String := String.mk (s.data.map lowerChar)

/-- Data of one regular file: opaque content, permission mode, mtime. -/
structure FileData where
  content : String
  mode : Nat
  mtime : Nat
deriving DecidableEq, Repr

/-- The filesystem: an association list from full path to file data.  The
list order is the directory enumeration order seen by `Path.glob`. -/
structure FS where
  files : List (String × FileData)
deriving DecidableEq, Repr

/-- Replace the entry at path `p` in place, or append a new one. -/
def setEntry (p : String) (d : FileData) : List (String × FileData) → List (String × FileData)
  | [] => [(p, d)]
  | e :: es => if e.1 == p then (p, d) :: es else e :: setEntry p d es

/-- Write file `p` with data `d` (create or overwrite). -/
def FS.write (fs : FS) (p : String) (d : FileData) : FS := ⟨setEntry p d fs.files⟩

/-- Look up the file at path `p`. -/
def FS.lookup (fs : FS) (p : String) : Option FileData :=
  (fs.files.find? (fun e => e.1 == p)).map (fun e => e.2)

/-- `Path.exists()` of the model. -/
def FS.existsFile (fs : FS) (p : String) : Bool := (fs.lookup p).isSome

/-- A propagating Python exception. -/
inductive PyExn where
  | commandFailed (cmd : List String)
  | indexError
deriving DecidableEq, Repr

/-- The host machine as seen by the script: read-only oracles for
`platform.system()`, process exit statuses, the binaries a successful
`cargo build` produces, `shutil.which("strip")`, the effect of `strip`,
and the SHA-256 hashing subprocesses used by `create_checksums`. -/
structure BuildEnv where
  /-- `platform.system()`, e.g. `"Windows"`, `"Linux"`, `"Darwin"`. -/
  hostSystem : String
  /-- Whether the process with this argv exits with status 0. -/
  runOk : List String → Bool
  /-- The file a successful `cargo build --release --target t` leaves at
  `target/t/release/rbx-studio-mcp` (`none`: build succeeds, no file). -/
  builtOutput : String → Option FileData
  /-- `shutil.which("strip") is not None`. -/
  stripOnPath : Bool
  /-- Content transformation a successful `strip` applies to the binary. -/
  stripResult : String → String
  /-- Whether the hashing subprocess for this path exits with status 0. -/
  hashOk : String → Bool
  /-- The hex digest the hashing subprocess prints for this path. -/
  hashHex : String → String
  /-- Permission mode of a file newly created by `open(..., "w")`. -/
  newFileMode : Nat
  /-- mtime stamped on files the script writes. -/
  clock : Nat

/-- Mutable state of a run: the filesystem and the ordered trace of every
external process spawned so far. -/
structure World where
  fs : FS
  trace : List (List String)
deriving DecidableEq, Repr

/-- `run_command(cmd)` (always called with `check=True`): spawns the
process; on non-zero exit the `CalledProcessError` is printed and
re-raised. -/
def run_command (env : BuildEnv) (w : World) (cmd : List String) : World × Option PyExn :=
  let w1 : World := { w with trace := w.trace ++ [cmd] }
  if env.runOk cmd then (w1, none) else (w1, some (PyExn.commandFailed cmd))

/-- `check_rust_installed()`: tries `rustc --version` then
`cargo --version`; any exception is caught and yields `False`, so the
second probe runs only if the first succeeded. -/
def check_rust_installed (env : BuildEnv) (w : World) : World × Bool :=
  match run_command env w ["rustc", "--version"] with
  | (w1, some _) => (w1, false)
  | (w1, none) =>
      match run_command env w1 ["cargo", "--version"] with
      | (w2, some _) => (w2, false)
      | (w2, none) => (w2, true)

/-- The static target list, repeated verbatim in `install_targets`,
`copy_binaries` and `main`. -/
def targets : List String := ["x86_64-unknown-linux-gnu", "aarch64-unknown-linux-gnu"]

/-- The loop body of `install_targets`: `rustup target add` each target,
any exception propagating. -/
def install_targets_go (env : BuildEnv) : List String → World → World × Option PyExn
  | [], w => (w, none)
  | t :: ts, w =>
      match run_command env w ["rustup", "target", "add", t] with
      | (w1, some e) => (w1, some e)
      | (w1, none) => install_targets_go env ts w1

/-- `install_targets()`. -/
def install_targets (env : BuildEnv) (w : World) : World × Option PyExn :=
  install_targets_go env targets w

/-- `target.split('-')[2] if '-' in target else 'unknown'`; `none` models
the `IndexError` raised when the split has fewer than three fields. -/
def target_os (t : String) : Option String :=
  if t.data.contains '-' then (pySplit '-' t).get? 2 else some "unknown"

/-- The release-build argv for one target. -/
def build_cmd (t : String) : List String := ["cargo", "build", "--release", "--target", t]

/-- `str(Path("target") / target / "release" / "rbx-studio-mcp")`. -/
def binary_path (t : String) : String := "target/" ++ t ++ "/release/rbx-studio-mcp"

/-- Filesystem effect of a successful `cargo build` for target `t`. -/
def applyCargoBuild (env : BuildEnv) (w : World) (t : String) : World :=
  match env.builtOutput t with
  | some d => { w with fs := w.fs.write (binary_path t) d }
  | none => w

/-- Filesystem effect of a successful `strip` on target `t`'s binary. -/
def applyStrip (env : BuildEnv) (w : World) (t : String) : World :=
  match w.fs.lookup (binary_path t) with
  | some d =>
      { w with fs := w.fs.write (binary_path t) { d with content := env.stripResult d.content } }
  | none => w

/-- `build_target(target)`: derive the target OS (possible `IndexError`),
skip when cross-compiling Windows→Linux, otherwise run the release build
and then best-effort locate and strip the binary.  Returns `None` (here:
`none` exception) on both the skip and the success paths. -/
def build_target (env : BuildEnv) (w : World) (t : String) : World × Option PyExn :=
  match target_os t with
  | none => (w, some PyExn.indexError)
  | some tos =>
      if pyLower env.hostSystem == "windows" && tos == "linux" then (w, none)
      else
        match run_command env w (build_cmd t) with
        | (w1, some e) => (w1, some e)
        | (w1, none) =>
            let w2 := applyCargoBuild env w1 t
            if env.stripOnPath && w2.fs.existsFile (binary_path t) then
              match run_command env w2 ["strip", binary_path t] with
              | (w3, some e) => (w3, some e)
              | (w3, none) => (applyStrip env w3 t, none)
            else (w2, none)

/-- `str(release_dir / f"rbx-studio-mcp-{target}")`. -/
def dest_path (t : String) : String := "release/rbx-studio-mcp-" ++ t

/-- One iteration of the `copy_binaries` loop: if the source binary
exists, `shutil.copy2` it (content, mode and mtime preserved) and, on a
non-Windows host, `os.chmod` the copy to `0o755`; otherwise print an
error and continue. -/
def copy_one (env : BuildEnv) (fs : FS) (t : String) : FS :=
  match fs.lookup (binary_path t) with
  | some d =>
      let fs1 := fs.write (dest_path t) d
      if env.hostSystem != "Windows" then fs1.write (dest_path t) { d with mode := 0o755 }
      else fs1
  | none => fs

/-- `copy_binaries()`: `release_dir.mkdir(exist_ok=True)` (implicit here),
then the copy loop over the static target list; never raises. -/
def copy_binaries (env : BuildEnv) (fs : FS) : FS :=
  targets.foldl (copy_one env) fs

/-- `str(release_dir / "checksums.txt")`. -/
def checksum_path : String := "release/checksums.txt"

/-- The characters of the glob pattern stem `"rbx-studio-mcp-"`; the
pattern `rbx-studio-mcp-*` matches exactly the names with this prefix. -/
def artifactPat : List Char := "rbx-studio-mcp-".data

/-- The name of `p` inside the `release` directory, if `p` lies there. -/
def releaseName (p : String) : Option String :=
  if "release/".data.isPrefixOf p.data then
    if (p.data.drop 8).contains '/' then none else some (String.mk (p.data.drop 8))
  else none

/-- Whether the file at path `p` is matched by
`release_dir.glob("rbx-studio-mcp-*")`, and under which name. -/
def artifactEntry (p : String) : Option (String × String) :=
  match releaseName p with
  | some name => if artifactPat.isPrefixOf name.data then some (p, name) else none
  | none => none

/-- `release_dir.glob("rbx-studio-mcp-*")` filtered by `is_file()`: the
`(full path, name)` pairs of the artifact files, in enumeration order. -/
def artifactEntries (fs : FS) : List (String × String) :=
  fs.files.filterMap (fun e => artifactEntry e.1)

/-- The single-quote character, used on the PowerShell command line. -/
def squote : String := String.mk [Char.ofNat 39]

/-- The hashing argv `create_checksums` spawns for one file: PowerShell
`Get-FileHash` on Windows, `sha256sum` elsewhere. -/
def hash_cmd (env : BuildEnv) (p : String) : List String :=
  if env.hostSystem == "Windows" then
    ["powershell", "-Command",
      "Get-FileHash " ++ squote ++ p ++ squote ++
        " -Algorithm SHA256 | Select-Object -ExpandProperty Hash"]
  else ["sha256sum", p]

/-- The `(digest, written filename)` pair recorded for one artifact, when
its hashing subprocess exits 0: the bare name on Windows, the full path
(as printed by `sha256sum`) elsewhere.  `none`: the file is omitted. -/
def checksum_pair (env : BuildEnv) (p name : String) : Option (String × String) :=
  if env.hostSystem == "Windows" then
    if env.hashOk p then some (env.hashHex p, name) else none
  else
    if env.hashOk p then some (env.hashHex p, p) else none

/-- Rendering of one manifest line, `f"{hash}  {name}\n"` on Windows and
`sha256sum`'s own `"{hash}  {path}\n"` elsewhere. -/
def renderLine (pr : String × String) : String := pr.1 ++ "  " ++ pr.2 ++ "\n"

/-- The `(digest, filename)` pairs a `create_checksums` run records for
the artifacts of `fs`, in enumeration order. -/
def checksum_pairs (env : BuildEnv) (fs : FS) : List (String × String) :=
  (artifactEntries fs).filterMap (fun e => checksum_pair env e.1 e.2)

/-- The manifest lines written for the artifacts of `fs`. -/
def checksum_lines (env : BuildEnv) (fs : FS) : List String :=
  (checksum_pairs env fs).map renderLine

/-- `create_checksums()`: `open(checksum_file, "w")` first creates or
truncates the manifest, then every artifact file (the manifest itself
never matches the glob) is hashed by a subprocess — without `check=True`,
so a failure only omits the file — and each successful line is written. -/
def create_checksums (env : BuildEnv) (w : World) : World :=
  let fs1 := w.fs.write checksum_path (FileData.mk "" env.newFileMode env.clock)
  let entries := artifactEntries fs1
  { fs := fs1.write checksum_path
      (FileData.mk (String.join ((entries.filterMap
          (fun e => checksum_pair env e.1 e.2)).map renderLine)) env.newFileMode env.clock),
    trace := w.trace ++ entries.map (fun e => hash_cmd env e.1) }

/-- The per-target build loop of `main`: any exception propagates and
stops the loop. -/
def build_all (env : BuildEnv) : List String → World → World × Option PyExn
  | [], w => (w, none)
  | t :: ts, w =>
      match build_target env w t with
      | (w1, some e) => (w1, some e)
      | (w1, none) => build_all env ts w1

/-- `main()`: the whole orchestrator run, returning the final world and
the process exit code.  `display_results` only reads and prints, so it
has no effect on the world; an exception escaping `main` makes CPython
exit with code 1, exactly like `sys.exit(1)`. -/
def script_main (env : BuildEnv) (w : World) : World × Nat :=
  if (w.fs.lookup "Cargo.toml").isNone then (w, 1)
  else
    match check_rust_installed env w with
    | (w1, false) => (w1, 1)
    | (w1, true) =>
        match install_targets env w1 with
        | (w2, some _) => (w2, 1)
        | (w2, none) =>
            match build_all env targets w2 with
            | (w3, some _) => (w3, 1)
            | (w3, none) =>
                let w4 : World := { w3 with fs := copy_binaries env w3.fs }
                (create_checksums env w4, 0)

/-! ### Filesystem lemmas -/

theorem find?_setEntry_self (p : String) (d : FileData) (l : List (String × FileData)) :
    (setEntry p d l).find? (fun e => e.1 == p) = some (p, d) := by
  induction l with
  | nil => simp [setEntry]
  | cons e es ih =>
      cases hb : (e.1 == p) with
      | false => simp [setEntry, hb, ih]
      | true => simp [setEntry, hb]

theorem find?_setEntry_ne (p q : String) (hpq : (p == q) = false) (d : FileData)
    (l : List (String × FileData)) :
    (setEntry p d l).find? (fun e => e.1 == q) = l.find? (fun e => e.1 == q) := by
  induction l with
  | nil => simp [setEntry, hpq]
  | cons e es ih =>
      cases hb : (e.1 == p) with
      | false =>
          cases hq : (e.1 == q) with
          | false => simp [setEntry, hb, List.find?_cons, hq, ih]
          | true => simp [setEntry, hb, List.find?_cons, hq]
      | true =>
          have he : e.1 = p := eq_of_beq hb
          simp [setEntry, hb, he, hpq]

theorem FS.lookup_write_self (fs : FS) (p : String) (d : FileData) :
    (fs.write p d).lookup p = some d := by
  simp [FS.write, FS.lookup, find?_setEntry_self]

theorem FS.lookup_write_ne (fs : FS) (p q : String) (hpq : (p == q) = false) (d : FileData) :
    (fs.write p d).lookup q = fs.lookup q := by
  simp [FS.write, FS.lookup, find?_setEntry_ne p q hpq]

/-! ### Glob and manifest lemmas -/

theorem artifactEntry_some {p : String} {pr : String × String}
    (h : artifactEntry p = some pr) :
    pr.1 = p ∧ releaseName p = some pr.2 ∧ artifactPat.isPrefixOf pr.2.data = true := by
  unfold artifactEntry at h
  cases hr : releaseName p with
  | none => rw [hr] at h; cases h
  | some name =>
      rw [hr] at h
      cases hp : artifactPat.isPrefixOf name.data with
      | false => simp [hp] at h
      | true =>
          have h' : (if artifactPat.isPrefixOf name.data = true then
              some (p, name) else none) = some pr := h
          rw [if_pos hp] at h'
          injection h' with h2
          subst h2
          exact ⟨rfl, rfl, hp⟩

theorem filterMap_artifactEntry_setEntry (p : String) (d : FileData)
    (l : List (String × FileData)) (h : artifactEntry p = none) :
    (setEntry p d l).filterMap (fun e => artifactEntry e.1) =
      l.filterMap (fun e => artifactEntry e.1) := by
  induction l with
  | nil => simp [setEntry, h]
  | cons e es ih =>
      cases hb : (e.1 == p) with
      | false =>
          cases hA : artifactEntry e.1 with
          | none => simp [setEntry, hb, List.filterMap_cons, hA, ih]
          | some pr => simp [setEntry, hb, List.filterMap_cons, hA, ih]
      | true =>
          have he : e.1 = p := eq_of_beq hb
          simp [setEntry, hb, he, h]

theorem artifactEntry_checksum_path : artifactEntry checksum_path = none := by decide

theorem artifactEntries_write_none (fs : FS) (p : String) (d : FileData)
    (h : artifactEntry p = none) :
    artifactEntries (fs.write p d) = artifactEntries fs :=
  filterMap_artifactEntry_setEntry p d fs.files h

theorem create_checksums_manifest (env : BuildEnv) (w : World) :
    (create_checksums env w).fs.lookup checksum_path =
      some ⟨String.join (checksum_lines env w.fs), env.newFileMode, env.clock⟩ := by
  unfold create_checksums checksum_lines checksum_pairs
  simp only [artifactEntries_write_none _ _ _ artifactEntry_checksum_path,
    FS.lookup_write_self]

theorem create_checksums_trace (env : BuildEnv) (w : World) :
    (create_checksums env w).trace =
      w.trace ++ (artifactEntries w.fs).map (fun e => hash_cmd env e.1) := by
  unfold create_checksums
  simp only [artifactEntries_write_none _ _ _ artifactEntry_checksum_path]

theorem releaseName_eq {p n : String} (h : releaseName p = some n) :
    p = "release/" ++ n := by
  unfold releaseName at h
  cases hp : "release/".data.isPrefixOf p.data with
  | false => rw [hp] at h; exact Option.noConfusion h
  | true =>
      rw [hp, if_pos rfl] at h
      cases hc : (p.data.drop 8).contains '/' with
      | true => rw [hc, if_pos rfl] at h; exact Option.noConfusion h
      | false =>
          rw [hc, if_neg Bool.false_ne_true] at h
          injection h with h2
          subst h2
          obtain ⟨t, ht⟩ := List.isPrefixOf_iff_prefix.mp hp
          have hlen : ("release/".data).length = 8 := by decide
          have hdrop : p.data.drop 8 = t := by
            rw [← ht, ← hlen, List.drop_left]
          apply String.ext
          rw [String.data_append]
          show p.data = "release/".data ++ p.data.drop 8
          rw [hdrop]
          exact ht.symm

theorem artifactEntries_keys_sublist (l : List (String × FileData)) :
    ((l.filterMap (fun e => artifactEntry e.1)).map Prod.fst).Sublist (l.map Prod.fst) := by
  induction l with
  | nil => simp
  | cons e es ih =>
      cases hA : artifactEntry e.1 with
      | none =>
          simp only [List.filterMap_cons, hA, List.map_cons]
          exact ih.cons e.1
      | some pr =>
          have hfst : pr.1 = e.1 := (artifactEntry_some hA).1
          simp only [List.filterMap_cons, hA, List.map_cons, hfst]
          exact ih.cons₂ e.1

theorem artifactEntries_keys_nodup {fs : FS} (hk : (fs.files.map Prod.fst).Nodup) :
    ((artifactEntries fs).map Prod.fst).Nodup :=
  (artifactEntries_keys_sublist fs.files).nodup hk

theorem artifactEntries_mem {fs : FS} {e : String × String} (he : e ∈ artifactEntries fs) :
    e.1 = "release/" ++ e.2 ∧ artifactPat.isPrefixOf e.2.data = true := by
  obtain ⟨a, _, ha⟩ := List.mem_filterMap.mp he
  obtain ⟨h1, h2, h3⟩ := artifactEntry_some ha
  exact ⟨h1.trans (releaseName_eq h2), h3⟩

theorem artifactEntries_names_nodup {fs : FS} (hk : (fs.files.map Prod.fst).Nodup) :
    ((artifactEntries fs).map Prod.snd).Nodup := by
  have hkeys : ((artifactEntries fs).map Prod.fst).Nodup := artifactEntries_keys_nodup hk
  have hmap : (artifactEntries fs).map Prod.fst =
      ((artifactEntries fs).map Prod.snd).map (fun n => "release/" ++ n) := by
    rw [List.map_map]
    exact List.map_congr_left (fun e he => (artifactEntries_mem he).1)
  rw [hmap] at hkeys
  exact List.Nodup.of_map _ hkeys

theorem checksum_pair_eq (env : BuildEnv) (p n : String) :
    checksum_pair env p n = if env.hashOk p then
      some (env.hashHex p, if env.hostSystem == "Windows" then n else p) else none := by
  unfold checksum_pair
  cases hw : (env.hostSystem == "Windows") with
  | false => simp [hw]
  | true => simp [hw]

theorem checksum_pairs_eq (env : BuildEnv) (fs : FS) :
    checksum_pairs env fs =
      ((artifactEntries fs).filter (fun e => env.hashOk e.1)).map
        (fun e => (env.hashHex e.1, if env.hostSystem == "Windows" then e.2 else e.1)) := by
  unfold checksum_pairs
  generalize (artifactEntries fs) = l
  induction l with
  | nil => simp
  | cons e es ih =>
      cases hk : env.hashOk e.1 with
      | false =>
          rw [List.filterMap_cons, List.filter_cons, checksum_pair_eq, hk]
          simpa using ih
      | true =>
          rw [List.filterMap_cons, List.filter_cons, checksum_pair_eq, hk]
          simpa using ih

theorem checksum_pairs_snd_nodup {env : BuildEnv} {fs : FS}
    (hk : (fs.files.map Prod.fst).Nodup) :
    ((checksum_pairs env fs).map Prod.snd).Nodup := by
  rw [checksum_pairs_eq, List.map_map]
  have hsub : ((artifactEntries fs).filter (fun e => env.hashOk e.1)).Sublist
      (artifactEntries fs) := List.filter_sublist _
  cases hw : (env.hostSystem == "Windows") with
  | false =>
      have hfun : (Prod.snd ∘ fun (e : String × String) =>
          (env.hashHex e.1, if false = true then e.2 else e.1)) =
          fun (e : String × String) => e.1 := funext fun e => by simp
      rw [hfun]
      exact (hsub.map _).nodup (artifactEntries_keys_nodup hk)
  | true =>
      have hfun : (Prod.snd ∘ fun (e : String × String) =>
          (env.hashHex e.1, if true = true then e.2 else e.1)) =
          fun (e : String × String) => e.2 := funext fun e => by simp
      rw [hfun]
      exact (hsub.map _).nodup (artifactEntries_names_nodup hk)

theorem checksum_pairs_nodup {env : BuildEnv} {fs : FS}
    (hk : (fs.files.map Prod.fst).Nodup) : (checksum_pairs env fs).Nodup :=
  List.Nodup.of_map _ (checksum_pairs_snd_nodup hk)

theorem checksum_pairs_length_all_ok {env : BuildEnv} {fs : FS}
    (h : ∀ e ∈ artifactEntries fs, env.hashOk e.1 = true) :
    (checksum_pairs env fs).length = (artifactEntries fs).length := by
  rw [checksum_pairs_eq, List.length_map, List.filter_eq_self.mpr h]

/-! ### Copy-phase lemmas -/

theorem copy_one_none (env : BuildEnv) (fs : FS) (t : String)
    (h : fs.lookup (binary_path t) = none) : copy_one env fs t = fs := by
  unfold copy_one
  rw [h]

theorem copy_one_some_dest (env : BuildEnv) (fs : FS) (t : String) (d : FileData)
    (h : fs.lookup (binary_path t) = some d) :
    (copy_one env fs t).lookup (dest_path t) =
      some ⟨d.content, if env.hostSystem != "Windows" then 0o755 else d.mode, d.mtime⟩ := by
  unfold copy_one
  rw [h]
  cases hw : (env.hostSystem != "Windows") with
  | false => simp [FS.lookup_write_self]
  | true => simp [FS.lookup_write_self]

theorem copy_one_lookup_ne (env : BuildEnv) (fs : FS) (t : String) (q : String)
    (hq : (dest_path t == q) = false) :
    (copy_one env fs t).lookup q = fs.lookup q := by
  unfold copy_one
  cases hl : fs.lookup (binary_path t) with
  | none => rfl
  | some d =>
      cases hw : (env.hostSystem != "Windows") with
      | false => simp [FS.lookup_write_ne _ _ _ hq]
      | true => simp [FS.lookup_write_ne _ _ _ hq]

theorem copy_binaries_eq (env : BuildEnv) (fs : FS) :
    copy_binaries env fs =
      copy_one env (copy_one env fs "x86_64-unknown-linux-gnu")
        "aarch64-unknown-linux-gnu" := rfl

/-! ### Build-phase lemmas -/

theorem applyCargoBuild_trace (env : BuildEnv) (w : World) (t : String) :
    (applyCargoBuild env w t).trace = w.trace := by
  unfold applyCargoBuild
  cases env.builtOutput t <;> rfl

theorem applyStrip_trace (env : BuildEnv) (w : World) (t : String) :
    (applyStrip env w t).trace = w.trace := by
  unfold applyStrip
  cases w.fs.lookup (binary_path t) <;> rfl

theorem build_target_skip (env : BuildEnv) (w : World) (t tos : String)
    (h : target_os t = some tos)
    (hs : (pyLower env.hostSystem == "windows" && (tos == "linux")) = true) :
    build_target env w t = (w, none) := by
  simp [build_target, h, hs]

theorem build_target_build_fail (env : BuildEnv) (w : World) (t tos : String)
    (h : target_os t = some tos)
    (hs : (pyLower env.hostSystem == "windows" && (tos == "linux")) = false)
    (hb : env.runOk (build_cmd t) = false) :
    build_target env w t =
      ({ w with trace := w.trace ++ [build_cmd t] },
       some (PyExn.commandFailed (build_cmd t))) := by
  simp [build_target, run_command, h, hs, hb]

theorem build_target_success_nostrip (env : BuildEnv) (w : World) (t tos : String)
    (h : target_os t = some tos)
    (hs : (pyLower env.hostSystem == "windows" && (tos == "linux")) = false)
    (hb : env.runOk (build_cmd t) = true)
    (hsp : env.stripOnPath = false) :
    build_target env w t =
      (applyCargoBuild env { w with trace := w.trace ++ [build_cmd t] } t, none) := by
  simp [build_target, run_command, h, hs, hb, hsp]

theorem build_target_strip_fail (env : BuildEnv) (w : World) (t tos : String) (d : FileData)
    (h : target_os t = some tos)
    (hs : (pyLower env.hostSystem == "windows" && (tos == "linux")) = false)
    (hb : env.runOk (build_cmd t) = true)
    (hsp : env.stripOnPath = true)
    (hbo : env.builtOutput t = some d)
    (hsf : env.runOk ["strip", binary_path t] = false) :
    build_target env w t =
      ({ fs := w.fs.write (binary_path t) d,
         trace := w.trace ++ [build_cmd t, ["strip", binary_path t]] },
       some (PyExn.commandFailed ["strip", binary_path t])) := by
  simp [build_target, run_command, applyCargoBuild, h, hs, hb, hsp, hbo, hsf,
    FS.existsFile, FS.lookup_write_self, List.append_assoc]

theorem build_target_trace_not_skip (env : BuildEnv) (w : World) (t tos : String)
    (h : target_os t = some tos)
    (hs : (pyLower env.hostSystem == "windows" && (tos == "linux")) = false) :
    ∃ rest, (build_target env w t).1.trace = (w.trace ++ [build_cmd t]) ++ rest := by
  cases hb : env.runOk (build_cmd t) with
  | false =>
      refine ⟨[], ?_⟩
      rw [build_target_build_fail env w t tos h hs hb]
      simp
  | true =>
      unfold build_target run_command
      simp only [h, hs, Bool.false_eq_true, if_false, hb, if_true]
      cases hc : (env.stripOnPath &&
          (applyCargoBuild env { w with trace := w.trace ++ [build_cmd t] } t).fs.existsFile
            (binary_path t)) with
      | false =>
          refine ⟨[], ?_⟩
          simp [hc, applyCargoBuild_trace]
      | true =>
          refine ⟨[["strip", binary_path t]], ?_⟩
          cases hsf : env.runOk ["strip", binary_path t] with
          | false => simp [hc, hsf, applyCargoBuild_trace]
          | true => simp [hc, hsf, applyStrip_trace, applyCargoBuild_trace]

/-! ### Orchestrator step lemmas -/

theorem check_rust_installed_ok (env : BuildEnv)
    (h2 : env.runOk ["rustc", "--version"] = true)
    (h3 : env.runOk ["cargo", "--version"] = true) (w : World) :
    check_rust_installed env w =
      ({ w with trace := w.trace ++ [["rustc", "--version"], ["cargo", "--version"]] },
       true) := by
  simp [check_rust_installed, run_command, h2, h3]

theorem check_rust_installed_rustc_fail (env : BuildEnv)
    (h2 : env.runOk ["rustc", "--version"] = false) (w : World) :
    check_rust_installed env w =
      ({ w with trace := w.trace ++ [["rustc", "--version"]] }, false) := by
  simp [check_rust_installed, run_command, h2]

theorem check_rust_installed_cargo_fail (env : BuildEnv)
    (h2 : env.runOk ["rustc", "--version"] = true)
    (h3 : env.runOk ["cargo", "--version"] = false) (w : World) :
    check_rust_installed env w =
      ({ w with trace := w.trace ++ [["rustc", "--version"], ["cargo", "--version"]] },
       false) := by
  simp [check_rust_installed, run_command, h2, h3]

theorem install_targets_ok (env : BuildEnv)
    (h4 : env.runOk ["rustup", "target", "add", "x86_64-unknown-linux-gnu"] = true)
    (h5 : env.runOk ["rustup", "target", "add", "aarch64-unknown-linux-gnu"] = true)
    (w : World) :
    install_targets env w =
      ({ w with trace := w.trace ++
          [["rustup", "target", "add", "x86_64-unknown-linux-gnu"],
           ["rustup", "target", "add", "aarch64-unknown-linux-gnu"]] }, none) := by
  simp [install_targets, install_targets_go, targets, run_command, h4, h5]

/-! ### Concrete hosts and worlds used by the scenario theorems -/

/-- The project marker file. -/
def cargoTomlFD : FileData := ⟨"[package]", 0o644, 1⟩

/-- A run started from the project root, empty trace, nothing built yet. -/
def w0 : World := ⟨⟨[("Cargo.toml", cargoTomlFD)]⟩, []⟩

/-- A world not containing the project marker. -/
def wEmpty : World := ⟨⟨[]⟩, []⟩

/-- A Linux host on which every external command succeeds. -/
def envAllOk : BuildEnv :=
  { hostSystem := "Linux"
    runOk := fun _ => true
    builtOutput := fun t => some ⟨"bin-" ++ t, 0o750, 11⟩
    stripOnPath := true
    stripResult := fun c => "stripped:" ++ c
    hashOk := fun _ => true
    hashHex := fun p => "h-" ++ p
    newFileMode := 0o644
    clock := 99 }

/-- Like `envAllOk` but the release build of the first target exits non-zero. -/
def envC1 : BuildEnv :=
  { envAllOk with runOk := fun c => !(c == build_cmd "x86_64-unknown-linux-gnu") }

/-- Like `envAllOk` but `rustc --version` fails (toolchain absent). -/
def envC6 : BuildEnv :=
  { envAllOk with runOk := fun c => !(c == ["rustc", "--version"]) }

/-! ### C1 -/

/-- C1 counterexample: with two targets configured and the first release
build exiting non-zero (host `envC1`, fresh world `w0`), the process exit
code is 1, not 0; the second target's build command is never spawned; and
neither the second target's artifact nor the manifest exists — the claimed
per-target isolation does not hold: the exception aborts the whole run. -/
theorem C1_counterexample :
    (script_main envC1 w0).2 = 1 ∧
    ((script_main envC1 w0).1.trace.contains
      (build_cmd "aarch64-unknown-linux-gnu")) = false ∧
    (script_main envC1 w0).1.fs.lookup (dest_path "aarch64-unknown-linux-gnu") = none ∧
    (script_main envC1 w0).1.fs.lookup checksum_path = none := by
  decide

/-- C1 (amended): when the release build of the first target exits
non-zero on a host where the target is not skipped, the exception
propagates out of `main`: the run stops right there with exit code 1, the
subsequent target is never built, and the filesystem is left untouched (no
artifact step, no manifest). -/
theorem C1_thm (env : BuildEnv) (w : World)
    (hct : (w.fs.lookup "Cargo.toml").isNone = false)
    (h2 : env.runOk ["rustc", "--version"] = true)
    (h3 : env.runOk ["cargo", "--version"] = true)
    (h4 : env.runOk ["rustup", "target", "add", "x86_64-unknown-linux-gnu"] = true)
    (h5 : env.runOk ["rustup", "target", "add", "aarch64-unknown-linux-gnu"] = true)
    (hw : (pyLower env.hostSystem == "windows") = false)
    (hb : env.runOk (build_cmd "x86_64-unknown-linux-gnu") = false) :
    script_main env w =
      ({ fs := w.fs,
         trace := w.trace ++ [["rustc", "--version"], ["cargo", "--version"],
           ["rustup", "target", "add", "x86_64-unknown-linux-gnu"],
           ["rustup", "target", "add", "aarch64-unknown-linux-gnu"],
           build_cmd "x86_64-unknown-linux-gnu"] }, 1) := by
  have hos : target_os "x86_64-unknown-linux-gnu" = some "linux" := by decide
  have hguard : (pyLower env.hostSystem == "windows" && (("linux" : String) == "linux")) =
      false := by rw [hw]; rfl
  have hbt : ∀ w' : World, build_target env w' "x86_64-unknown-linux-gnu" =
      ({ w' with trace := w'.trace ++ [build_cmd "x86_64-unknown-linux-gnu"] },
       some (PyExn.commandFailed (build_cmd "x86_64-unknown-linux-gnu"))) :=
    fun w' => build_target_build_fail env w' _ _ hos hguard hb
  simp only [script_main, hct, Bool.false_eq_true, if_false,
    check_rust_installed_ok env h2 h3, install_targets_ok env h4 h5,
    targets, build_all, hbt]
  simp [List.append_assoc]

/-- Witness for C1: the amended behaviour at the concrete host `envC1`. -/
theorem C1_witness :
    script_main envC1 w0 =
      ({ fs := w0.fs,
         trace := w0.trace ++ [["rustc", "--version"], ["cargo", "--version"],
           ["rustup", "target", "add", "x86_64-unknown-linux-gnu"],
           ["rustup", "target", "add", "aarch64-unknown-linux-gnu"],
           build_cmd "x86_64-unknown-linux-gnu"] }, 1) :=
  C1_thm envC1 w0 (by decide) (by decide) (by decide) (by decide) (by decide)
    (by decide) (by decide)

/-! ### C6 -/

/-- C6 counterexample: with the compiler's version query failing (host
`envC6`), the orchestrator exits 1 after spawning exactly one command in
total — the package manager's version query is never attempted, so there
is NOT "exactly one verification attempt each". -/
theorem C6_counterexample :
    (script_main envC6 w0).2 = 1 ∧
    (script_main envC6 w0).1.trace = [["rustc", "--version"]] ∧
    ((script_main envC6 w0).1.trace.contains ["cargo", "--version"]) = false := by
  decide

/-- C6 (amended): toolchain absent means exit code 1 with no installation
or build command ever spawned; the compiler's version query is attempted
exactly once, and the package manager's version query is attempted exactly
once if the compiler probe succeeded and not at all if it failed. -/
theorem C6_thm (env : BuildEnv) (w : World)
    (hct : (w.fs.lookup "Cargo.toml").isNone = false) :
    (env.runOk ["rustc", "--version"] = false →
      script_main env w =
        ({ w with trace := w.trace ++ [["rustc", "--version"]] }, 1)) ∧
    (env.runOk ["rustc", "--version"] = true →
      env.runOk ["cargo", "--version"] = false →
      script_main env w =
        ({ w with trace := w.trace ++ [["rustc", "--version"], ["cargo", "--version"]] },
         1)) := by
  constructor
  · intro h2
    simp only [script_main, hct, Bool.false_eq_true, if_false,
      check_rust_installed_rustc_fail env h2]
  · intro h2 h3
    simp only [script_main, hct, Bool.false_eq_true, if_false,
      check_rust_installed_cargo_fail env h2 h3]

/-- Witness for C6: the amended behaviour at the concrete host `envC6`. -/
theorem C6_witness :
    script_main envC6 w0 = ({ w0 with trace := w0.trace ++ [["rustc", "--version"]] }, 1) :=
  (C6_thm envC6 w0 (by decide)).1 (by decide)

/-! ### C7 -/

/-- C7: if the project marker `Cargo.toml` does not exist in the working
directory, `main` exits with code 1 immediately: the returned world equals
the initial one, so no external command was spawned, no toolchain check
ran, and no file was written. -/
theorem C7_thm (env : BuildEnv) (w : World)
    (h : w.fs.lookup "Cargo.toml" = none) : script_main env w = (w, 1) := by
  simp [script_main, h]

/-- Witness for C7: a world without the marker exits 1 unchanged. -/
theorem C7_witness : script_main envAllOk wEmpty = (wEmpty, 1) :=
  C7_thm envAllOk wEmpty (by decide)

/-! ### C2 -/

/-- C2 counterexample: the triple `"a-b"` does contain the separator but
splits into only two fields, so the derivation is an `IndexError`
(modelled `none`) — not the literal `"unknown"` the claim promises — and
`build_target` on it raises instead of proceeding. -/
theorem C2_counterexample :
    target_os "a-b" = none ∧ target_os "a-b" ≠ some "unknown" ∧
    build_target envAllOk w0 "a-b" = (w0, some PyExn.indexError) := by
  decide

/-- C2 (amended): deriving the OS component yields the literal `"unknown"`
exactly when the triple contains no separator at all; when it contains a
separator the component is field 2 of the split, and the derivation fails
with an `IndexError` precisely when that split has fewer than three
fields (e.g. `"a-b"`), rather than falling back to `"unknown"`. -/
theorem C2_thm (t : String) :
    (t.data.contains '-' = false → target_os t = some "unknown") ∧
    (t.data.contains '-' = true → target_os t = (pySplit '-' t).get? 2) ∧
    (target_os t = none ↔
      (t.data.contains '-' = true ∧ (pySplit '-' t).length ≤ 2)) := by
  refine ⟨fun h => ?_, fun h => ?_, ?_, ?_⟩
  · unfold target_os
    rw [h, if_neg Bool.false_ne_true]
  · unfold target_os
    rw [h, if_pos rfl]
  · intro h
    unfold target_os at h
    cases hc : t.data.contains '-' with
    | false => rw [hc, if_neg Bool.false_ne_true] at h; exact Option.noConfusion h
    | true =>
        rw [hc, if_pos rfl] at h
        exact ⟨rfl, List.get?_eq_none.mp h⟩
  · rintro ⟨hc, hlen⟩
    unfold target_os
    rw [hc, if_pos rfl]
    exact List.get?_eq_none.mpr hlen

/-- Witness for C2: a dash-free triple falls back to `"unknown"`, while
the two-field triple `"a-b"` fails. -/
theorem C2_witness : target_os "nodashes" = some "unknown" ∧ target_os "a-b" = none :=
  ⟨(C2_thm "nodashes").1 (by decide),
   (C2_thm "a-b").2.2.mpr (by decide)⟩

/-! ### C3 -/

/-- Like `envAllOk` but the `strip` invocation on the first target's
binary exits non-zero. -/
def envC3 : BuildEnv :=
  { envAllOk with
      runOk := fun c => !(c == ["strip", binary_path "x86_64-unknown-linux-gnu"]) }

/-- C3 counterexample: `strip` is on the path and the built binary
exists, so the stripping step is invoked — but its failure raises,
aborting the whole batch: the second target is never built and neither
collection nor checksums run, contradicting "does not abort the batch". -/
theorem C3_counterexample :
    ((script_main envC3 w0).1.trace.contains
      ["strip", binary_path "x86_64-unknown-linux-gnu"]) = true ∧
    (script_main envC3 w0).2 = 1 ∧
    ((script_main envC3 w0).1.trace.contains
      (build_cmd "aarch64-unknown-linux-gnu")) = false ∧
    (script_main envC3 w0).1.fs.lookup checksum_path = none := by
  decide

/-- C3 (amended): after a successful build whose binary exists, if a
stripping utility is on the search path the strip subprocess is invoked
on the binary; but a non-zero exit of that subprocess raises a
`CalledProcessError` that propagates out of `build_target`, so the
per-target loop stops at once — the remaining targets are not built and
the collect/checksum/report steps never run. -/
theorem C3_thm (env : BuildEnv) (w : World) (t tos : String) (d : FileData)
    (rest : List String)
    (h : target_os t = some tos)
    (hs : (pyLower env.hostSystem == "windows" && (tos == "linux")) = false)
    (hb : env.runOk (build_cmd t) = true)
    (hsp : env.stripOnPath = true)
    (hbo : env.builtOutput t = some d)
    (hsf : env.runOk ["strip", binary_path t] = false) :
    build_all env (t :: rest) w =
      ({ fs := w.fs.write (binary_path t) d,
         trace := w.trace ++ [build_cmd t, ["strip", binary_path t]] },
       some (PyExn.commandFailed ["strip", binary_path t])) := by
  simp only [build_all, build_target_strip_fail env w t tos d h hs hb hsp hbo hsf]

/-- Witness for C3: the strip failure on the first target stops the loop
before the second target, at the concrete host `envC3`. -/
theorem C3_witness :
    build_all envC3 ["x86_64-unknown-linux-gnu", "aarch64-unknown-linux-gnu"] w0 =
      ({ fs := w0.fs.write (binary_path "x86_64-unknown-linux-gnu")
            ⟨"bin-x86_64-unknown-linux-gnu", 0o750, 11⟩,
         trace := w0.trace ++ [build_cmd "x86_64-unknown-linux-gnu",
           ["strip", binary_path "x86_64-unknown-linux-gnu"]] },
       some (PyExn.commandFailed ["strip", binary_path "x86_64-unknown-linux-gnu"])) :=
  C3_thm envC3 w0 "x86_64-unknown-linux-gnu" "linux"
    ⟨"bin-x86_64-unknown-linux-gnu", 0o750, 11⟩ ["aarch64-unknown-linux-gnu"]
    (by decide) (by decide) (by decide) (by decide) (by decide) (by decide)

/-! ### C4 -/

/-- A Windows host on which every external command succeeds. -/
def envWin : BuildEnv := { envAllOk with hostSystem := "Windows" }

/-- A stale binary left at the aarch64 expected output path by some
earlier run. -/
def staleFD : FileData := ⟨"stale-bin", 0o600, 5⟩

/-- Project root plus a stale aarch64 binary, nothing else. -/
def wStale : World :=
  ⟨⟨[("Cargo.toml", cargoTomlFD),
     ("target/aarch64-unknown-linux-gnu/release/rbx-studio-mcp", staleFD)]⟩, []⟩

/-- C4 counterexample: on a Windows host the aarch64 Linux target is
skipped (its build command is never spawned), yet because a stale binary
sits at the expected source path the copy phase still creates the
artifact `release/rbx-studio-mcp-aarch64-unknown-linux-gnu` — so "for a
skipped target no artifact file appears in the output directory" is
false as stated. -/
theorem C4_counterexample :
    ((script_main envWin wStale).1.trace.contains
      (build_cmd "aarch64-unknown-linux-gnu")) = false ∧
    (script_main envWin wStale).1.fs.lookup (dest_path "aarch64-unknown-linux-gnu") =
      some staleFD ∧
    (script_main envWin wStale).2 = 0 := by
  decide

/-- C4 (amended): for every target whose OS derivation succeeds, the
build is skipped — returning with the world unchanged, no build command
spawned — iff the lowercased host OS is `"windows"` and the derived OS is
`"linux"`; in every other case the build subcommand is spawned.  The
build step itself creates nothing for a skipped target: on a Windows
host starting with no stale binaries, no artifact file appears for the
skipped Linux targets and the run still exits 0 (an artifact can appear
for a skipped target only when a binary pre-exists at its source path). -/
theorem C4_thm :
    (∀ (env : BuildEnv) (w : World) (t tos : String), target_os t = some tos →
      ((pyLower env.hostSystem == "windows" && (tos == "linux")) = true →
        build_target env w t = (w, none)) ∧
      ((pyLower env.hostSystem == "windows" && (tos == "linux")) = false →
        build_cmd t ∈ (build_target env w t).1.trace)) ∧
    ((script_main envWin w0).1.fs.lookup (dest_path "x86_64-unknown-linux-gnu") = none ∧
     (script_main envWin w0).1.fs.lookup (dest_path "aarch64-unknown-linux-gnu") = none ∧
     ((script_main envWin w0).1.trace.contains
       (build_cmd "x86_64-unknown-linux-gnu")) = false ∧
     ((script_main envWin w0).1.trace.contains
       (build_cmd "aarch64-unknown-linux-gnu")) = false ∧
     (script_main envWin w0).2 = 0) := by
  constructor
  · intro env w t tos h
    refine ⟨fun hs => build_target_skip env w t tos h hs, fun hs => ?_⟩
    obtain ⟨rest, hr⟩ := build_target_trace_not_skip env w t tos h hs
    rw [hr]
    simp
  · decide

/-- Witness for C4: the Windows→Linux combination is skipped with the
world untouched. -/
theorem C4_witness :
    build_target envWin w0 "aarch64-unknown-linux-gnu" = (w0, none) :=
  (C4_thm.1 envWin w0 "aarch64-unknown-linux-gnu" "linux" (by decide)).1 (by decide)

/-! ### C5 -/

/-- Like `envAllOk` but the hashing subprocess for the first target's
copied artifact exits non-zero. -/
def envC5 : BuildEnv :=
  { envAllOk with hashOk := fun p => !(p == dest_path "x86_64-unknown-linux-gnu") }

/-- A file in the release directory, as left by some earlier run. -/
def binFD : FileData := ⟨"ELF", 0o750, 7⟩

/-- A world whose release directory holds exactly one artifact. -/
def wRel : World :=
  ⟨⟨[("release/rbx-studio-mcp-x86_64-unknown-linux-gnu", binFD)]⟩, []⟩

/-- C5: after `create_checksums` the manifest `release/checksums.txt`
holds exactly the rendered line of every artifact file present at
generation time whose hashing subprocess succeeded, in enumeration
order — its content is computed solely from those files, so any prior
manifest content is discarded; when every hash succeeds there is exactly
one line per artifact; entries are pairwise distinct whenever the
filesystem's paths are; and a hashing failure merely omits that file:
the run still completes with exit code 0 and the other artifact's line
(shown at the concrete host `envC5`). -/
theorem C5_thm :
    (∀ (env : BuildEnv) (w : World),
      (create_checksums env w).fs.lookup checksum_path =
        some ⟨String.join (checksum_lines env w.fs), env.newFileMode, env.clock⟩ ∧
      checksum_lines env w.fs =
        ((artifactEntries w.fs).filter (fun e => env.hashOk e.1)).map
          (fun e => renderLine (env.hashHex e.1,
            if env.hostSystem == "Windows" then e.2 else e.1)) ∧
      ((∀ e ∈ artifactEntries w.fs, env.hashOk e.1 = true) →
        (checksum_lines env w.fs).length = (artifactEntries w.fs).length) ∧
      ((w.fs.files.map Prod.fst).Nodup → (checksum_pairs env w.fs).Nodup)) ∧
    ((script_main envC5 w0).2 = 0 ∧
     (script_main envC5 w0).1.fs.lookup checksum_path =
       some ⟨"h-release/rbx-studio-mcp-aarch64-unknown-linux-gnu  release/rbx-studio-mcp-aarch64-unknown-linux-gnu\n",
         0o644, 99⟩) := by
  constructor
  · intro env w
    refine ⟨create_checksums_manifest env w, ?_, ?_, fun hk => checksum_pairs_nodup hk⟩
    · unfold checksum_lines
      rw [checksum_pairs_eq, List.map_map]
      rfl
    · intro hall
      unfold checksum_lines
      rw [List.length_map, checksum_pairs_length_all_ok hall]
  · exact ⟨by decide, by decide⟩

/-- Witness for C5: with every hash succeeding, the manifest for a
one-artifact release directory has exactly one line. -/
theorem C5_witness :
    (checksum_lines envAllOk wRel.fs).length = (artifactEntries wRel.fs).length :=
  (C5_thm.1 envAllOk wRel).2.2.1 (by decide)

/-! ### C8 -/

/-- C8: for each target in the fixed list, if the expected source binary
exists, `copy_binaries` copies it to `release/rbx-studio-mcp-<target>`
with content and mtime preserved, and the copy's mode is `0o755` exactly
on non-Windows hosts (otherwise the source's mode is kept, as
`shutil.copy2` copies permission bits); if the source does not exist the
destination is left untouched (an error is printed) and the other target
is still processed — the phase is total and never raises. -/
theorem C8_thm (env : BuildEnv) (fs : FS) (t : String) (ht : t ∈ targets) :
    (∀ d : FileData, fs.lookup (binary_path t) = some d →
      (copy_binaries env fs).lookup (dest_path t) =
        some ⟨d.content, if env.hostSystem != "Windows" then 0o755 else d.mode,
          d.mtime⟩) ∧
    (fs.lookup (binary_path t) = none →
      (copy_binaries env fs).lookup (dest_path t) = fs.lookup (dest_path t)) := by
  rw [copy_binaries_eq]
  have ht' : t = "x86_64-unknown-linux-gnu" ∨ t = "aarch64-unknown-linux-gnu" := by
    simpa [targets] using ht
  rcases ht' with rfl | rfl
  · constructor
    · intro d hd
      rw [copy_one_lookup_ne _ _ _ _ (by decide)]
      exact copy_one_some_dest _ _ _ _ hd
    · intro hd
      rw [copy_one_lookup_ne _ _ _ _ (by decide), copy_one_none _ _ _ hd]
  · constructor
    · intro d hd
      have hbp : (copy_one env fs "x86_64-unknown-linux-gnu").lookup
          (binary_path "aarch64-unknown-linux-gnu") = some d := by
        rw [copy_one_lookup_ne _ _ _ _ (by decide)]
        exact hd
      exact copy_one_some_dest _ _ _ _ hbp
    · intro hd
      have hbp : (copy_one env fs "x86_64-unknown-linux-gnu").lookup
          (binary_path "aarch64-unknown-linux-gnu") = none := by
        rw [copy_one_lookup_ne _ _ _ _ (by decide)]
        exact hd
      rw [copy_one_none _ _ _ hbp, copy_one_lookup_ne _ _ _ _ (by decide)]

/-- Witness for C8: the stale aarch64 binary is copied with content and
mtime preserved and mode set to `0o755` on the Linux host. -/
theorem C8_witness :
    (copy_binaries envAllOk wStale.fs).lookup (dest_path "aarch64-unknown-linux-gnu") =
      some ⟨"stale-bin", 0o755, 5⟩ :=
  ((C8_thm envAllOk wStale.fs "aarch64-unknown-linux-gnu" (by decide)).1
    staleFD (by decide)).trans (by decide)

/-! ### C9 -/

/-- C9: `build_target` returns the same value — Python `None`, here the
`none` of the exception slot with no payload — on both the skip path and
the successful-build path, so the caller cannot tell `Skipped` from
`Succeeded` by the return value; and the collection and checksum phases
take no build results at all, re-deriving their work from the
filesystem: on a Windows host where the aarch64 target is skipped, a
stale binary at its expected source path is still collected into the
release directory and checksummed into the manifest. -/
theorem C9_thm :
    (∀ (env : BuildEnv) (w : World) (t tos : String), target_os t = some tos →
      ((pyLower env.hostSystem == "windows" && (tos == "linux")) = true →
        (build_target env w t).2 = none) ∧
      ((pyLower env.hostSystem == "windows" && (tos == "linux")) = false →
        env.runOk (build_cmd t) = true → env.stripOnPath = false →
        (build_target env w t).2 = none)) ∧
    ((script_main envWin wStale).1.fs.lookup (dest_path "aarch64-unknown-linux-gnu") =
        some staleFD ∧
     ((script_main envWin wStale).1.trace.contains
       (build_cmd "aarch64-unknown-linux-gnu")) = false ∧
     (script_main envWin wStale).1.fs.lookup checksum_path =
       some ⟨"h-release/rbx-studio-mcp-aarch64-unknown-linux-gnu  rbx-studio-mcp-aarch64-unknown-linux-gnu\n",
         0o644, 99⟩) := by
  constructor
  · intro env w t tos h
    constructor
    · intro hs
      rw [build_target_skip env w t tos h hs]
    · intro hs hb hsp
      rw [build_target_success_nostrip env w t tos h hs hb hsp]
  · exact ⟨by decide, by decide, by decide⟩

/-- Witness for C9: the skip path's return value at a concrete input. -/
theorem C9_witness :
    (build_target envWin w0 "aarch64-unknown-linux-gnu").2 = none :=
  (C9_thm.1 envWin w0 "aarch64-unknown-linux-gnu" "linux" (by decide)).1 (by decide)

/-! ### C10 -/

theorem artifactEntries_mem_entry {fs : FS} {e : String × String}
    (he : e ∈ artifactEntries fs) : artifactEntry e.1 = some e := by
  obtain ⟨a, _, ha⟩ := List.mem_filterMap.mp he
  have h1 := (artifactEntry_some ha).1
  rw [← h1] at ha
  exact ha

/-- C10: `create_checksums` always creates or truncates
`release/checksums.txt` (the manifest is empty when there are zero
artifacts); only files whose name starts with `rbx-studio-mcp-` are
hashed (one hashing subprocess each, nothing else); and no entry for
`checksums.txt` can ever appear in the manifest — neither its path nor
its name is ever a recorded filename. -/
theorem C10_thm (env : BuildEnv) (w : World) :
    (create_checksums env w).fs.lookup checksum_path =
      some ⟨String.join (checksum_lines env w.fs), env.newFileMode, env.clock⟩ ∧
    (artifactEntries w.fs = [] →
      (create_checksums env w).fs.lookup checksum_path =
        some ⟨"", env.newFileMode, env.clock⟩) ∧
    (create_checksums env w).trace =
      w.trace ++ (artifactEntries w.fs).map (fun e => hash_cmd env e.1) ∧
    (∀ e ∈ artifactEntries w.fs, artifactPat.isPrefixOf e.2.data = true ∧
      e.1 ≠ checksum_path ∧ e.2 ≠ "checksums.txt") ∧
    (∀ pr ∈ checksum_pairs env w.fs, pr.2 ≠ "checksums.txt" ∧ pr.2 ≠ checksum_path) := by
  refine ⟨create_checksums_manifest env w, ?_, create_checksums_trace env w, ?_, ?_⟩
  · intro h
    rw [create_checksums_manifest env w]
    unfold checksum_lines checksum_pairs
    rw [h]
    rfl
  · intro e he
    have hent := artifactEntries_mem_entry he
    have hmem := artifactEntries_mem he
    refine ⟨hmem.2, fun hq => ?_, fun hq => ?_⟩
    · rw [hq, artifactEntry_checksum_path] at hent
      exact Option.noConfusion hent
    · have h2 := hmem.2
      rw [hq] at h2
      exact absurd h2 (by decide)
  · intro pr hpr
    rw [checksum_pairs_eq] at hpr
    obtain ⟨e, he, hpe⟩ := List.mem_map.mp hpr
    have hef : e ∈ artifactEntries w.fs := (List.mem_filter.mp he).1
    have hent := artifactEntries_mem_entry hef
    have hmem := artifactEntries_mem hef
    have hsnd : pr.2 = if env.hostSystem == "Windows" then e.2 else e.1 := by
      rw [← hpe]
    cases hw : (env.hostSystem == "Windows") with
    | true =>
        rw [hw, if_pos rfl] at hsnd
        refine ⟨fun hq => ?_, fun hq => ?_⟩
        · rw [hsnd] at hq
          have h2 := hmem.2
          rw [hq] at h2
          exact absurd h2 (by decide)
        · rw [hsnd] at hq
          have h2 := hmem.2
          rw [hq] at h2
          exact absurd h2 (by decide)
    | false =>
        rw [hw, if_neg Bool.false_ne_true] at hsnd
        refine ⟨fun hq => ?_, fun hq => ?_⟩
        · rw [hsnd] at hq
          rw [hq, show artifactEntry "checksums.txt" = none from by decide] at hent
          exact Option.noConfusion hent
        · rw [hsnd] at hq
          rw [hq, artifactEntry_checksum_path] at hent
          exact Option.noConfusion hent

/-- Witness for C10: with no artifacts on disk the manifest is created
empty. -/
theorem C10_witness :
    (create_checksums envAllOk wEmpty).fs.lookup checksum_path =
      some ⟨"", envAllOk.newFileMode, envAllOk.clock⟩ :=
  (C10_thm envAllOk wEmpty).2.1 (by decide)
